import Mathlib

/-!
# danphoto-api-rust — verification of the authentication / image-ingestion core

Shallow embedding of the Rust sources under `src/` (axum handlers, JWT auth,
base64 image pipeline).  Strings are Lean `String`s; the Rust `str` methods
used by the code (`trim`, `to_lowercase`, `starts_with`, `strip_prefix`,
`split_once`, `is_empty`) are modelled explicitly over the character list so
that every definition is executable.  The filesystem is an association list
from path to byte list; filesystem writes are modelled as infallible (I/O
errors are outside the model).  Bytes are `Nat`s < 256.
-/

namespace DanPhoto

instance {ε α : Type} [DecidableEq ε] [DecidableEq α] : DecidableEq (Except ε α) := fun a b =>
  match a, b with
  | .ok x, .ok y => if h : x = y then .isTrue (by rw [h]) else .isFalse (by simp [h])
  | .error x, .error y => if h : x = y then .isTrue (by rw [h]) else .isFalse (by simp [h])
  | .ok _, .error _ => .isFalse (by simp)
  | .error _, .ok _ => .isFalse (by simp)

/-! ## Rust string primitives -/

/-- Model of Rust `str::trim`: drop leading and trailing whitespace. -/
def rustTrim (s : String) : String :=
  ⟨((s.data.dropWhile Char.isWhitespace).reverse.dropWhile Char.isWhitespace).reverse⟩

/-- Model of Rust `str::to_lowercase` (ASCII-faithful: maps each char with
`Char.toLower`; the payloads involved are ASCII MIME types). -/
def rustToLower (s : String) : String := ⟨s.data.map Char.toLower⟩

/-- Model of Rust `str::starts_with`. -/
def rustStartsWith (s pre : String) : Bool := pre.data.isPrefixOf s.data

/-- Model of Rust `str::strip_prefix`: `some` of the rest when `pre` is a
prefix of `s`, else `none`. -/
def rustStripPrefix (s pre : String) : Option String :=
  if rustStartsWith s pre then some ⟨s.data.drop pre.data.length⟩ else none

/-- Model of Rust `str::is_empty`. -/
def rustIsEmpty (s : String) : Bool := s.data.isEmpty

/-- Helper for `rustSplitOnce`, over character lists: split at the first
occurrence of `sep`. -/
def splitOnceList (sep : List Char) : List Char → Option (List Char × List Char)
  | [] => none
  | c :: rest =>
    if sep.isPrefixOf (c :: rest) then some ([], (c :: rest).drop sep.length)
    else (splitOnceList sep rest).map (fun p => (c :: p.1, p.2))

/-- Model of Rust `str::split_once`: split `s` at the first occurrence of the
(non-empty) delimiter `sep`. -/
def rustSplitOnce (s sep : String) : Option (String × String) :=
  (splitOnceList sep.data s.data).map (fun p => (⟨p.1⟩, ⟨p.2⟩))

/-! ## Base64 (standard alphabet, canonical padding)

Model of `base64::engine::general_purpose::STANDARD.decode`: standard
alphabet, input length must be a multiple of 4, `=` padding only in the final
group, non-zero trailing bits rejected.  Errors carry a short reason string
(standing for the crate's `DecodeError` display). -/

/-- Value of a base64 alphabet character, `none` for a non-alphabet char. -/
def b64Val (c : Char) : Option Nat :=
  if 'A' ≤ c ∧ c ≤ 'Z' then some (c.toNat - 'A'.toNat)
  else if 'a' ≤ c ∧ c ≤ 'z' then some (c.toNat - 'a'.toNat + 26)
  else if '0' ≤ c ∧ c ≤ '9' then some (c.toNat - '0'.toNat + 52)
  else if c = '+' then some 62
  else if c = '/' then some 63
  else none

/-- Decode one final-position group of four base64 characters (possibly
padded) into 1–3 bytes. -/
def b64Group (a b c d : Char) : Except String (List Nat) :=
  match b64Val a, b64Val b with
  | some va, some vb =>
    if c = '=' then
      if d = '=' then
        if vb % 16 = 0 then .ok [va * 4 + vb / 16] else .error "invalid last symbol"
      else .error "invalid padding"
    else
      match b64Val c with
      | some vc =>
        if d = '=' then
          if vc % 4 = 0 then .ok [va * 4 + vb / 16, (vb % 16) * 16 + vc / 4]
          else .error "invalid last symbol"
        else
          match b64Val d with
          | some vd => .ok [va * 4 + vb / 16, (vb % 16) * 16 + vc / 4, (vc % 4) * 64 + vd]
          | none => .error "invalid byte"
      | none => .error "invalid byte"
  | _, _ => .error "invalid byte"

/-- Decode a base64 character list, four characters at a time. -/
def b64DecodeList : List Char → Except String (List Nat)
  | [] => .ok []
  | a :: b :: c :: d :: rest =>
    if rest.isEmpty then b64Group a b c d
    else if c = '=' ∨ d = '=' then .error "invalid padding"
    else do
      let bs ← b64Group a b c d
      let more ← b64DecodeList rest
      .ok (bs ++ more)
  | _ => .error "invalid length"

/-- Model of `STANDARD.decode` on a string. -/
def b64Decode (s : String) : Except String (List Nat) := b64DecodeList s.data

/-! ## Domain errors (src/domain/repositories/error.rs, src/api/error.rs) -/

/-- `DomainError` from `src/domain/repositories/error.rs`; the `Repository`
variant's `anyhow::Error` is modelled as its message string. -/
inductive DomainError
  | NotFound (msg : String)
  | Validation (msg : String)
  | Repository (msg : String)
deriving DecidableEq, Repr

/-- `ApiError(DomainError) → (status, message)` from
`impl IntoResponse for ApiError` in `src/api/error.rs`. -/
def apiErrorResponse : DomainError → Nat × String
  | .NotFound m => (404, "not found: " ++ m)
  | .Validation m => (400, "validation: " ++ m)
  | .Repository _ => (500, "Error interno del servidor")

/-! ## Image payload decoding

The decode part shared verbatim by `save_pose_image_base64`,
`save_portfolio_image_base64`, `save_post_image_base64`,
`save_evento_image_base64`, `save_theme_image_base64` and the avatar path:
data-URI handling, extension choice, base64 decode, emptiness check. -/

/-- The decode/validate prefix common to every `save_*_image_base64` in
`src/src/api/handlers/*.rs` (e.g. poses.rs lines 38–57): strip a `data:`
prefix, split at `";base64,"`, pick `png`/`jpg` from the (trimmed,
lowercased) MIME, base64-decode the trimmed body, reject empty output. -/
def decodeImagePayload (image_base64 : String) : Except DomainError (List Nat × String) := do
  let (payload, ext) ←
    match rustStripPrefix image_base64 "data:" with
    | some rest =>
      match rustSplitOnce rest ";base64," with
      | none => .error (.Validation
          "formato base64 inválido: se esperaba data:image/...;base64,...")
      | some (mime, b64) =>
        let ext := if rustStartsWith (rustToLower (rustTrim mime)) "image/png"
          then "png" else "jpg"
        .ok (rustTrim b64, ext)
    | none => .ok (rustTrim image_base64, "jpg")
  let bytes ←
    match b64Decode payload with
    | .ok bs => .ok bs
    | .error e => .error (.Validation ("base64 inválido: " ++ e))
  if bytes.isEmpty then
    .error (.Validation "imagen vacía")
  else
    .ok (bytes, ext)

/-! ## Filesystem model

An association list from absolute path to byte content.  `fsWrite` models
`std::fs::write` (create-or-overwrite), `fsRemove` models
`std::fs::remove_file`, `fsGet`/`fsExists` model `std::fs::read` /
`Path::exists`.  `create_dir_all` has no observable effect in this model. -/

/-- Filesystem state: path ↦ bytes. -/
def FS : Type := List (String × List Nat)

instance : DecidableEq FS := inferInstanceAs (DecidableEq (List (String × List Nat)))

/-- Overwrite-or-create a file (model of `std::fs::write`). -/
def fsWrite (fs : FS) (p : String) (b : List Nat) : FS :=
  (p, b) :: fs.filter (fun e => e.1 ≠ p)

/-- Delete a file if present (model of `std::fs::remove_file`, result ignored
by the caller). -/
def fsRemove (fs : FS) (p : String) : FS := fs.filter (fun e => e.1 ≠ p)

/-- Read a file (model of `std::fs::read`). -/
def fsGet (fs : FS) (p : String) : Option (List Nat) :=
  (fs.find? (fun e => e.1 = p)).map (·.2)

/-- Model of `Path::exists`. -/
def fsExists (fs : FS) (p : String) : Bool := (fs.find? (fun e => e.1 = p)).isSome

/-- The path `{dir}/{id}.{ext}` built by `format!("{}.{}", id, ext)` joined
onto the images directory. -/
def imgPath (dir id ext : String) : String := dir ++ "/" ++ id ++ "." ++ ext

/-! ## save_*_image_base64 (store) and image serving

Each handler file holds its own copy of the decode-and-write function; they
differ only in the URL they return.  `save_post_image_base64` first resolves
a relative directory against the process CWD (`resolve_posts_dir`); the model
takes the directory as already resolved. -/

/-- `save_pose_image_base64` (src/api/handlers/poses.rs 33–65): decode, write
`dir/{id}.{ext}`, return the URL `/api/poses/{id}/image` and the new
filesystem. -/
def save_pose_image_base64 (fs : FS) (dir id image_base64 : String) :
    Except DomainError (String × FS) :=
  match decodeImagePayload image_base64 with
  | .error e => .error e
  | .ok (bytes, ext) =>
    .ok ("/api/poses/" ++ id ++ "/image", fsWrite fs (imgPath dir id ext) bytes)

/-- `save_portfolio_image_base64` (src/api/handlers/portfolio.rs 39–71). -/
def save_portfolio_image_base64 (fs : FS) (dir id image_base64 : String) :
    Except DomainError (String × FS) :=
  match decodeImagePayload image_base64 with
  | .error e => .error e
  | .ok (bytes, ext) =>
    .ok ("/api/portfolio/images/" ++ id ++ "/image", fsWrite fs (imgPath dir id ext) bytes)

/-- `save_post_image_base64` (src/api/handlers/posts.rs 44–79); `dir` stands
for the already-resolved base directory. -/
def save_post_image_base64 (fs : FS) (dir id image_base64 : String) :
    Except DomainError (String × FS) :=
  match decodeImagePayload image_base64 with
  | .error e => .error e
  | .ok (bytes, ext) =>
    .ok ("/api/posts/" ++ id ++ "/image", fsWrite fs (imgPath dir id ext) bytes)

/-- `save_evento_image_base64` (src/api/handlers/eventos.rs 173–207). -/
def save_evento_image_base64 (fs : FS) (dir id image_base64 : String) :
    Except DomainError (String × FS) :=
  match decodeImagePayload image_base64 with
  | .error e => .error e
  | .ok (bytes, ext) =>
    .ok ("/api/eventos/" ++ id ++ "/image", fsWrite fs (imgPath dir id ext) bytes)

/-- `save_theme_image_base64` (src/api/handlers/theme_of_the_day.rs 27–60). -/
def save_theme_image_base64 (fs : FS) (dir id image_base64 : String) :
    Except DomainError (String × FS) :=
  match decodeImagePayload image_base64 with
  | .error e => .error e
  | .ok (bytes, ext) =>
    .ok ("/api/theme-of-the-day/" ++ id ++ "/image", fsWrite fs (imgPath dir id ext) bytes)

/-- `get_pose_image` (src/api/handlers/poses.rs 181–207): probe
`{id}.png`, `{id}.jpg`, `{id}.jpeg` in that order; content type `image/png`
for `png`, `image/jpeg` otherwise; `NotFound` when none exists. -/
def get_pose_image (fs : FS) (dir id : String) : Except DomainError (List Nat × String) :=
  match fsGet fs (imgPath dir id "png") with
  | some b => .ok (b, "image/png")
  | none =>
    match fsGet fs (imgPath dir id "jpg") with
    | some b => .ok (b, "image/jpeg")
    | none =>
      match fsGet fs (imgPath dir id "jpeg") with
      | some b => .ok (b, "image/jpeg")
      | none => .error (.NotFound ("Imagen no encontrada para la pose " ++ id))

/-! ## Create-with-image handlers

Each handler is modelled as a function of the current filesystem, the images
directory, the freshly drawn id and the request, parametrised by the outcome
of the owning repository insert (the external DB collaborator).  It returns
the handler result together with the final filesystem. -/

/-- A pose row as returned by the create use case. -/
structure Pose where
  id : String
  url : String
deriving DecidableEq, Repr

/-- `create_pose` (src/api/handlers/poses.rs 151–168): empty-payload check,
save image, then the DB insert; a DB error is propagated with `?` and no file
cleanup happens. -/
def create_pose (fs : FS) (dir id : String) (image_base64 : String)
    (db : Except DomainError Pose) : Except DomainError Pose × FS :=
  if rustIsEmpty (rustTrim image_base64) then
    (.error (.Validation "image_base64 es requerido"), fs)
  else
    match save_pose_image_base64 fs dir id image_base64 with
    | .error e => (.error e, fs)
    | .ok (_url, fs') =>
      match db with
      | .error e => (.error e, fs')
      | .ok item => (.ok item, fs')

/-- A portfolio image row. -/
structure PortfolioImage where
  id : String
  categoryId : String
  url : String
deriving DecidableEq, Repr

/-- `add_portfolio_image` (src/api/handlers/portfolio.rs 222–251): on DB
insert failure it removes `{id}.png`, `{id}.jpg`, `{id}.jpeg` from the images
directory before returning the DB error. -/
def add_portfolio_image (fs : FS) (dir id : String) (image_base64 : String)
    (db : Except DomainError PortfolioImage) : Except DomainError PortfolioImage × FS :=
  if rustIsEmpty (rustTrim image_base64) then
    (.error (.Validation "image_base64 es requerido"), fs)
  else
    match save_portfolio_image_base64 fs dir id image_base64 with
    | .error e => (.error e, fs)
    | .ok (_url, fs') =>
      match db with
      | .error e =>
        let fs'' := fsRemove (fsRemove (fsRemove fs' (imgPath dir id "png"))
          (imgPath dir id "jpg")) (imgPath dir id "jpeg")
        (.error e, fs'')
      | .ok item => (.ok item, fs')

/-- An `usuarios` row as read by the auth repository (`AuthUser` in
src/domain): id (UUID as string), email, bcrypt password hash. -/
structure AuthUser where
  id : String
  email : String
  password_hash : String
deriving DecidableEq, Repr

/-- A post row as returned by the create use case; only the fields the
claims observe. -/
structure Post where
  id : String
  userId : Option String
  themeId : String
deriving DecidableEq, Repr

/-- `create_post` request body (src/api/dto/posts.rs). -/
structure CreatePostRequest where
  image_base64 : String
  description : Option String
  theme_of_the_day_id : String
deriving DecidableEq, Repr

/-- `create_post` (src/api/handlers/posts.rs 198–232): empty checks on
`image_base64` and `theme_of_the_day_id`, then an inline
`auth_repository.get_by_email` whose `Option` is mapped to an optional
author id (`user.map(|u| u.id)` — no NotFound failure), image save, then the
DB insert receiving that optional author id.  No file cleanup on DB error. -/
def create_post (fs : FS) (dir id : String) (body : CreatePostRequest)
    (lookup : Except DomainError (Option AuthUser))
    (db : Option String → Except DomainError Post) : Except DomainError Post × FS :=
  if rustIsEmpty (rustTrim body.image_base64) then
    (.error (.Validation "image_base64 es requerido"), fs)
  else if rustIsEmpty (rustTrim body.theme_of_the_day_id) then
    (.error (.Validation "theme_of_the_day_id es requerido"), fs)
  else
    match lookup with
    | .error e => (.error e, fs)
    | .ok user =>
      let user_id := user.map (·.id)
      match save_post_image_base64 fs dir id body.image_base64 with
      | .error e => (.error e, fs)
      | .ok (_url, fs') =>
        match db user_id with
        | .error e => (.error e, fs')
        | .ok item => (.ok item, fs')

/-- An evento row. -/
structure Evento where
  id : String
  name : String
deriving DecidableEq, Repr

/-- `create_evento` (src/api/handlers/eventos.rs 267–284): empty-payload
check, image save, DB insert; no file cleanup on DB error. -/
def create_evento (fs : FS) (dir id : String) (image_base64 : String)
    (db : Except DomainError Evento) : Except DomainError Evento × FS :=
  if rustIsEmpty (rustTrim image_base64) then
    (.error (.Validation "image_base64 es requerido"), fs)
  else
    match save_evento_image_base64 fs dir id image_base64 with
    | .error e => (.error e, fs)
    | .ok (_url, fs') =>
      match db with
      | .error e => (.error e, fs')
      | .ok item => (.ok item, fs')

/-- A theme-of-the-day row. -/
structure ThemeOfTheDay where
  id : String
  name : String
deriving DecidableEq, Repr

/-- `create_theme_of_the_day` (src/api/handlers/theme_of_the_day.rs 142–156):
saves the image under the client-chosen `body.id` (no pre-save empty check —
an empty payload is rejected inside the decoder), then the use-case insert;
no file cleanup on DB error. -/
def create_theme_of_the_day (fs : FS) (dir : String) (id : String) (image_base64 : String)
    (db : Except DomainError ThemeOfTheDay) : Except DomainError ThemeOfTheDay × FS :=
  match save_theme_image_base64 fs dir id image_base64 with
  | .error e => (.error e, fs)
  | .ok (_url, fs') =>
    match db with
    | .error e => (.error e, fs')
    | .ok item => (.ok item, fs')

/-! ## Token codec (src/api/auth.rs, jsonwebtoken)

A JWT string is modelled symbolically: either a well-formed token signed
with some secret and carrying `Claims {sub, exp}`, or garbage.  `jwtDecode`
embeds `jsonwebtoken::decode::<Claims>` with `Validation::default()`:
signature check against the secret, then the expiry check
`exp < now - leeway` with the crate's default leeway of 60 seconds
(`validate_exp = true`, `leeway = 60`).  Timestamps are `Int` (the Rust
`i64` seconds; overflow is outside the model). -/

/-- `Claims` (src/api/auth.rs 35–38): `sub` = email, `exp` = Unix seconds. -/
structure Claims where
  sub : String
  exp : Int
deriving DecidableEq, Repr

/-- A token string: a JWT signed with `secret` over `claims`, or any other
string. -/
inductive TokenStr
  | signed (claims : Claims) (secret : String)
  | garbage (s : String)
deriving DecidableEq, Repr

/-- Errors of `jsonwebtoken::decode` relevant here. -/
inductive JwtError
  | malformed
  | invalidSignature
  | expiredSignature
deriving DecidableEq, Repr

/-- Default leeway of `jsonwebtoken::Validation::default()` (60 seconds). -/
def jwtLeeway : Int := 60

/-- Model of `jsonwebtoken::decode::<Claims>(token, key(secret),
Validation::default())` evaluated when the clock reads `now`. -/
def jwtDecode (t : TokenStr) (secret : String) (now : Int) : Except JwtError Claims :=
  match t with
  | .garbage _ => .error .malformed
  | .signed claims tokSecret =>
    if tokSecret ≠ secret then .error .invalidSignature
    else if claims.exp < now - jwtLeeway then .error .expiredSignature
    else .ok claims

/-- `create_token` (src/api/auth.rs 114–125): sign
`Claims {sub = email, exp = now + exp_secs}` with the secret. -/
def create_token (email secret : String) (exp_secs now : Int) : TokenStr :=
  .signed ⟨email, now + exp_secs⟩ secret

/-! ## Request authenticator (BearerAuth extractor) -/

/-- The possible shapes of a present `Authorization` header value:
bytes that are not visible ASCII (`HeaderValue::to_str` fails), a string
without the `"Bearer "` prefix, or `"Bearer "` followed by a token string. -/
inductive AuthHeaderVal
  | badBytes (bs : List Nat)
  | notBearer (s : String)
  | bearerTok (t : TokenStr)
deriving DecidableEq, Repr

/-- `AuthError` (src/api/auth.rs 77–81). -/
inductive AuthError
  | Missing
  | Invalid
deriving DecidableEq, Repr

/-- `BearerAuth::from_header_and_secret` (src/api/auth.rs 60–75): absent
header ⇒ `Missing`; non-ASCII header bytes ⇒ `Invalid`; no `"Bearer "`
prefix ⇒ `Invalid`; otherwise decode the token, any decode failure ⇒
`Invalid`, success yields the claim's `sub`. -/
def from_header_and_secret (auth_header : Option AuthHeaderVal) (secret : String)
    (now : Int) : Except AuthError String :=
  match auth_header with
  | none => .error .Missing
  | some (.badBytes _) => .error .Invalid
  | some (.notBearer _) => .error .Invalid
  | some (.bearerTok t) =>
    match jwtDecode t secret now with
    | .error _ => .error .Invalid
    | .ok claims => .ok claims.sub

/-- `impl IntoResponse for AuthError` (src/api/auth.rs 83–91): status and the
`error` field of the JSON body. -/
def authErrorResponse : AuthError → Nat × String
  | .Missing => (401, "Authorization header missing")
  | .Invalid => (401, "Invalid or expired token")

/-! ## Identity resolver and login -/

/-- `user_id_from_auth` (src/api/auth.rs 20–31): delegate to
`auth_repository.get_by_email`; a repository error is propagated, no match
fails with `NotFound "Usuario no encontrado"`, a match yields the user id. -/
def user_id_from_auth (lookup : Except DomainError (Option AuthUser)) :
    Except DomainError String :=
  match lookup with
  | .error e => .error e
  | .ok none => .error (.NotFound "Usuario no encontrado")
  | .ok (some u) => .ok u.id

/-- The auth repository's `get_by_email` over an in-memory table: first row
whose email equals the argument exactly. -/
def authGetByEmail (db : List AuthUser) (email : String) : Option AuthUser :=
  db.find? (fun u => u.email == email)

/-- `LoginRequest` (src/api/auth.rs 41–45). -/
structure LoginRequest where
  email : String
  password : String
deriving DecidableEq, Repr

/-- `LoginResponse` (src/api/auth.rs 48–52). -/
structure LoginResponse where
  token : TokenStr
  token_type : String
deriving DecidableEq, Repr

/-- `login` (src/api/auth.rs 138–181), parametrised by the user table (with a
repository failure as `.error`) and by the bcrypt primitive
(`bcrypt::verify(password, hash)`, whose own failure the code collapses with
`unwrap_or(false)`).  Errors are `(status, error-message)` pairs. -/
def login (body : LoginRequest) (repo : Except String (List AuthUser))
    (bcryptVerify : String → String → Except String Bool)
    (secret : String) (now : Int) : Except (Nat × String) LoginResponse :=
  match repo with
  | .error _ => .error (500, "Error al buscar usuario")
  | .ok db =>
    let email := rustTrim body.email
    match authGetByEmail db email with
    | none => .error (401, "Usuario o contraseña incorrectos")
    | some user =>
      let ok := match bcryptVerify body.password user.password_hash with
        | .ok b => b
        | .error _ => false
      if !ok then .error (401, "Usuario o contraseña incorrectos")
      else .ok ⟨create_token user.email secret (24 * 3600) now, "Bearer"⟩

/-! ## Pagination (paginated list handlers)

Each paginated handler starts with
`let page = q.page.unwrap_or(0); let limit = q.limit.unwrap_or(20).min(100);`
and hands exactly that pair to its use case / repository.  The u32 query
parameters are modelled as `Option Nat`. -/

/-- `PaginationQuery { page, limit }`. -/
structure PaginationQuery where
  page : Option Nat
  limit : Option Nat
deriving DecidableEq, Repr

/-- The `(page, limit)` pair `list_poses_paginated` passes to its use case
(src/api/handlers/poses.rs 106–107). -/
def list_poses_paginated_params (q : PaginationQuery) : Nat × Nat :=
  (q.page.getD 0, min (q.limit.getD 20) 100)

/-- The `(page, limit)` pair `list_posts_paginated` passes to its use case
(src/api/handlers/posts.rs 119–120). -/
def list_posts_paginated_params (q : PaginationQuery) : Nat × Nat :=
  (q.page.getD 0, min (q.limit.getD 20) 100)

/-- The `(page, limit)` pair `get_portfolio_images` passes to its use case
(src/api/handlers/portfolio.rs 116–117). -/
def get_portfolio_images_params (q : PaginationQuery) : Nat × Nat :=
  (q.page.getD 0, min (q.limit.getD 20) 100)

/-- The `(page, limit)` pair `get_poses_by_hashtag_paginated` passes to its
use case (src/api/handlers/poses.rs 278–279). -/
def get_poses_by_hashtag_paginated_params (q : PaginationQuery) : Nat × Nat :=
  (q.page.getD 0, min (q.limit.getD 20) 100)

/-- `get_favorite_poses` (src/api/handlers/favorites.rs 33–41): resolves the
caller's id through `user_id_from_auth` and then queries favorites;
modelled up to the repository call. -/
def get_favorite_poses (lookup : Except DomainError (Option AuthUser))
    (favs : String → Except DomainError (List Pose)) :
    Except DomainError (List Pose) :=
  match user_id_from_auth lookup with
  | .error e => .error e
  | .ok uid => favs uid

/-! ## The decoder algorithm as the claim words it

Two renderings of the claimed decoding algorithm, to compare against
`decodeImagePayload`: `decodeImageClaim` follows the claim text literally
(the MIME part is tested as-is), `decodeImageSpec` is the amended version
(the MIME part is trimmed before the case-insensitive prefix test, as the
code does). -/

/-- Case-insensitive "starts with image/png" test on the raw MIME part
(the claim's literal wording). -/
def claimExtension (mime : String) : String :=
  if rustStartsWith (rustToLower mime) "image/png" then "png" else "jpg"

/-- Extension rule with the MIME part trimmed first (amended wording). -/
def specExtension (mime : String) : String :=
  if rustStartsWith (rustToLower (rustTrim mime)) "image/png" then "png" else "jpg"

/-- Split step of the claimed algorithm: returns the base64 body (trimmed)
and the chosen extension, parametrised by the extension rule. -/
def specSplit (extRule : String → String) (payload : String) :
    Except DomainError (String × String) :=
  match rustStripPrefix payload "data:" with
  | none => .ok (rustTrim payload, "jpg")
  | some rest =>
    match rustSplitOnce rest ";base64," with
    | none => .error (.Validation
        "formato base64 inválido: se esperaba data:image/...;base64,...")
    | some (mime, b64) => .ok (rustTrim b64, extRule mime)

/-- Decode step of the claimed algorithm: base64-decode the body, fail on a
decode error or empty output. -/
def specDecode (split : Except DomainError (String × String)) :
    Except DomainError (List Nat × String) :=
  match split with
  | .error e => .error e
  | .ok (body, ext) =>
    match b64Decode body with
    | .error e => .error (.Validation ("base64 inválido: " ++ e))
    | .ok bytes =>
      if bytes.isEmpty then .error (.Validation "imagen vacía") else .ok (bytes, ext)

/-- C6's algorithm exactly as the claim words it (no MIME trim). -/
def decodeImageClaim (payload : String) : Except DomainError (List Nat × String) :=
  specDecode (specSplit claimExtension payload)

/-- C6's algorithm amended: MIME trimmed before the prefix test. -/
def decodeImageSpec (payload : String) : Except DomainError (List Nat × String) :=
  specDecode (specSplit specExtension payload)

/-! ## Helper lemmas -/

theorem fsExists_fsWrite_self (fs : FS) (p : String) (b : List Nat) :
    fsExists (fsWrite fs p b) p = true := by
  simp [fsExists, fsWrite, List.find?]

theorem fsGet_fsWrite_self (fs : FS) (p : String) (b : List Nat) :
    fsGet (fsWrite fs p b) p = some b := by
  simp [fsGet, fsWrite, List.find?]

theorem fsfind_filter_ne (fs : FS) (p q : String) (h : p ≠ q) :
    (fs.filter (fun e => e.1 ≠ q)).find? (fun e => e.1 = p) = fs.find? (fun e => e.1 = p) := by
  induction fs with
  | nil => rfl
  | cons e rest ih =>
    by_cases he : e.1 = p
    · have hq : e.1 ≠ q := by rw [he]; exact h
      rw [List.filter_cons_of_pos (by simp [hq]), List.find?_cons_of_pos _ (by simp [he]),
        List.find?_cons_of_pos _ (by simp [he])]
    · by_cases hq : e.1 = q
      · rw [List.filter_cons_of_neg (by simp [hq]), List.find?_cons_of_neg _ (by simp [he]), ih]
      · rw [List.filter_cons_of_pos (by simp [hq]), List.find?_cons_of_neg _ (by simp [he]),
          List.find?_cons_of_neg _ (by simp [he]), ih]

theorem fsGet_fsWrite_ne (fs : FS) (p q : String) (b : List Nat) (h : p ≠ q) :
    fsGet (fsWrite fs q b) p = fsGet fs p := by
  simp only [fsGet, fsWrite]
  rw [List.find?_cons_of_neg _ (by simp [Ne.symm h]), fsfind_filter_ne fs p q h]

theorem fsExists_fsRemove_self (fs : FS) (p : String) :
    fsExists (fsRemove fs p) p = false := by
  simp only [fsExists, fsRemove]
  rw [Bool.eq_false_iff]
  intro hs
  rw [List.find?_isSome] at hs
  obtain ⟨e, hmem, hp⟩ := hs
  have hf := List.of_mem_filter hmem
  simp at hf hp
  exact hf hp

theorem fsExists_fsRemove_of_false (fs : FS) (p q : String)
    (h : fsExists fs p = false) : fsExists (fsRemove fs q) p = false := by
  simp only [fsExists, fsRemove] at h ⊢
  rw [Bool.eq_false_iff] at h ⊢
  intro hs
  apply h
  rw [List.find?_isSome] at hs ⊢
  obtain ⟨e, hmem, hp⟩ := hs
  exact ⟨e, List.mem_of_mem_filter hmem, hp⟩

theorem string_append_right_ne (s : String) {t t' : String} (h : t ≠ t') :
    s ++ t ≠ s ++ t' := by
  intro he
  apply h
  have hd : (s ++ t).data = (s ++ t').data := by rw [he]
  rw [String.data_append, String.data_append] at hd
  exact String.ext (List.append_cancel_left hd)

theorem imgPath_ne (dir id : String) {e e' : String} (h : e ≠ e') :
    imgPath dir id e ≠ imgPath dir id e' :=
  string_append_right_ne (dir ++ "/" ++ id ++ ".") h

/-- The externally observable outcome of the authentication gate: the
rejection response `(status, error body)` or `none` when the request reaches
the handler. -/
def gateResponse (h : Option AuthHeaderVal) (secret : String) (now : Int) :
    Option (Nat × String) :=
  match from_header_and_secret h secret now with
  | .error e => some (authErrorResponse e)
  | .ok _ => none

theorem jwtDecode_create_token (sub secret : String) (ttl now : Int) :
    jwtDecode (create_token sub secret ttl now) secret now
      = if now + ttl < now - 60 then .error .expiredSignature
        else .ok ⟨sub, now + ttl⟩ := by
  by_cases hc : now + ttl < now - 60 <;>
    simp [jwtDecode, create_token, jwtLeeway, hc]

theorem gate_bearer (t : TokenStr) (secret : String) (now : Int) :
    from_header_and_secret (some (.bearerTok t)) secret now
      = match jwtDecode t secret now with
        | .error _ => .error .Invalid
        | .ok c => .ok c.sub := rfl

/-! ## Claims -/

/-- C1, counterexample: `create_pose` with a valid payload whose owning DB
insert fails returns the DB error but leaves the just-written file
`d/X.jpg` on disk — the claimed compensating delete does not happen for
poses (nor for posts, eventos or themes; only `add_portfolio_image` has
it). -/
theorem C1_counterexample :
    (create_pose ([] : FS) "d" "X" "QUJD" (.error (.Repository "db down"))).1
      = .error (.Repository "db down")
  ∧ fsExists (create_pose ([] : FS) "d" "X" "QUJD"
      (.error (.Repository "db down"))).2 "d/X.jpg" = true := by
  constructor <;> decide

/-- C1, amended: on DB-insert failure after a successful image write, only
`add_portfolio_image` deletes the just-written file across png/jpg/jpeg and
returns the original DB error; `create_pose`, `create_post`, `create_evento`
and `create_theme_of_the_day` return the original DB error but leave the
just-written file on disk. -/
theorem C1_amended (fs : FS) (dir id payload : String) (bytes : List Nat) (ext : String)
    (e : DomainError) (body : CreatePostRequest) (u : Option AuthUser)
    (hne : rustIsEmpty (rustTrim payload) = false)
    (hdec : decodeImagePayload payload = .ok (bytes, ext))
    (hbody : body.image_base64 = payload)
    (hth : rustIsEmpty (rustTrim body.theme_of_the_day_id) = false) :
    ((add_portfolio_image fs dir id payload (.error e)).1 = .error e
      ∧ fsExists (add_portfolio_image fs dir id payload (.error e)).2
          (imgPath dir id "png") = false
      ∧ fsExists (add_portfolio_image fs dir id payload (.error e)).2
          (imgPath dir id "jpg") = false
      ∧ fsExists (add_portfolio_image fs dir id payload (.error e)).2
          (imgPath dir id "jpeg") = false)
  ∧ ((create_pose fs dir id payload (.error e)).1 = .error e
      ∧ fsExists (create_pose fs dir id payload (.error e)).2 (imgPath dir id ext) = true)
  ∧ ((create_post fs dir id body (.ok u) (fun _ => .error e)).1 = .error e
      ∧ fsExists (create_post fs dir id body (.ok u) (fun _ => .error e)).2
          (imgPath dir id ext) = true)
  ∧ ((create_evento fs dir id payload (.error e)).1 = .error e
      ∧ fsExists (create_evento fs dir id payload (.error e)).2 (imgPath dir id ext) = true)
  ∧ ((create_theme_of_the_day fs dir id payload (.error e)).1 = .error e
      ∧ fsExists (create_theme_of_the_day fs dir id payload (.error e)).2
          (imgPath dir id ext) = true) := by
  have hport : add_portfolio_image fs dir id payload (.error e)
      = (.error e, fsRemove (fsRemove (fsRemove (fsWrite fs (imgPath dir id ext) bytes)
          (imgPath dir id "png")) (imgPath dir id "jpg")) (imgPath dir id "jpeg")) := by
    simp [add_portfolio_image, hne, save_portfolio_image_base64, hdec]
  have hpose : create_pose fs dir id payload (.error e)
      = (.error e, fsWrite fs (imgPath dir id ext) bytes) := by
    simp [create_pose, hne, save_pose_image_base64, hdec]
  have hpost : create_post fs dir id body (.ok u) (fun _ => .error e)
      = (.error e, fsWrite fs (imgPath dir id ext) bytes) := by
    simp [create_post, hbody, hne, hth, save_post_image_base64, hdec]
  have hev : create_evento fs dir id payload (.error e)
      = (.error e, fsWrite fs (imgPath dir id ext) bytes) := by
    simp [create_evento, hne, save_evento_image_base64, hdec]
  have hthm : create_theme_of_the_day fs dir id payload (.error e)
      = (.error e, fsWrite fs (imgPath dir id ext) bytes) := by
    simp [create_theme_of_the_day, save_theme_image_base64, hdec]
  rw [hport, hpose, hpost, hev, hthm]
  refine ⟨⟨rfl, ?_, ?_, ?_⟩, ⟨rfl, ?_⟩, ⟨rfl, ?_⟩, ⟨rfl, ?_⟩, ⟨rfl, ?_⟩⟩
  · exact fsExists_fsRemove_of_false _ _ _
      (fsExists_fsRemove_of_false _ _ _ (fsExists_fsRemove_self _ _))
  · exact fsExists_fsRemove_of_false _ _ _ (fsExists_fsRemove_self _ _)
  · exact fsExists_fsRemove_self _ _
  all_goals exact fsExists_fsWrite_self _ _ _

/-- C1, witness for the amended theorem at a concrete payload and DB error. -/
theorem C1_amended_witness :
    (add_portfolio_image ([] : FS) "d" "X" "QUJD" (.error (.Repository "db down"))).1
      = .error (.Repository "db down")
  ∧ fsExists (add_portfolio_image ([] : FS) "d" "X" "QUJD"
      (.error (.Repository "db down"))).2 (imgPath "d" "X" "jpg") = false
  ∧ (create_evento ([] : FS) "d" "X" "QUJD" (.error (.Repository "db down"))).1
      = .error (.Repository "db down")
  ∧ fsExists (create_evento ([] : FS) "d" "X" "QUJD"
      (.error (.Repository "db down"))).2 (imgPath "d" "X" "jpg") = true :=
  have h := C1_amended ([] : FS) "d" "X" "QUJD" [65, 66, 67] "jpg"
    (.Repository "db down") ⟨"QUJD", none, "0101"⟩ none
    (by decide) (by decide) rfl (by decide)
  ⟨h.1.1, h.1.2.2.1, h.2.2.2.1.1, h.2.2.2.1.2⟩

/-- C2, counterexample: issuing a token with `ttl_seconds = 0` and verifying
it at the same instant **succeeds** (the claim says every `ttl <= 0` fails
with `Invalid`): `jsonwebtoken`'s `Validation::default()` has a 60-second
leeway, so `exp = now` is accepted. -/
theorem C2_counterexample :
    jwtDecode (create_token "a@example.com" "secret" 0 1700000000) "secret" 1700000000
      = .ok ⟨"a@example.com", 1700000000⟩
  ∧ from_header_and_secret
      (some (.bearerTok (create_token "a@example.com" "secret" 0 1700000000)))
      "secret" 1700000000 = .ok "a@example.com" := by
  constructor <;> rfl

/-- C2, amended: token verification (with the codec's default 60-second
leeway) fails at the gate with `Invalid` exactly when the claim's expiry is
more than 60 seconds in the past; hence `verify(issue(subject, ttl))`
immediately after issuance fails for `ttl < -60` and succeeds (yielding the
subject) for `ttl >= -60` — in particular it succeeds for every
`ttl_seconds` in `[-60, 0]`. -/
theorem C2_amended (sub secret : String) (ttl now : Int) :
    (ttl < -60 → from_header_and_secret
        (some (.bearerTok (create_token sub secret ttl now))) secret now
      = .error .Invalid)
  ∧ (-60 ≤ ttl → from_header_and_secret
        (some (.bearerTok (create_token sub secret ttl now))) secret now
      = .ok sub) := by
  constructor
  · intro h
    rw [gate_bearer, jwtDecode_create_token, if_pos (by omega)]
  · intro h
    rw [gate_bearer, jwtDecode_create_token, if_neg (by omega)]

/-- C2, witness for the amended theorem at `ttl = -100` and `ttl = 0`. -/
theorem C2_amended_witness :
    from_header_and_secret
      (some (.bearerTok (create_token "a@example.com" "s" (-100) 1700000000)))
      "s" 1700000000 = .error .Invalid
  ∧ from_header_and_secret
      (some (.bearerTok (create_token "a@example.com" "s" 0 1700000000)))
      "s" 1700000000 = .ok "a@example.com" :=
  ⟨(C2_amended "a@example.com" "s" (-100) 1700000000).1 (by norm_num),
   (C2_amended "a@example.com" "s" 0 1700000000).2 (by norm_num)⟩

/-- C3, counterexample: a present `Authorization` header that is not
parseable as `"Bearer <token>"` (here `"Basic abc"`) is rejected with reason
`Invalid`, not `Missing` as the claim states. -/
theorem C3_counterexample :
    from_header_and_secret (some (.notBearer "Basic abc")) "secret" 1700000000
      = .error .Invalid
  ∧ from_header_and_secret (some (.notBearer "Basic abc")) "secret" 1700000000
      ≠ .error .Missing := by
  constructor
  · rfl
  · intro h
    exact absurd (Except.error.inj h) (by simp)

/-- C3, amended: the gate yields `Missing` exactly when the `Authorization`
header is absent; a header that is present but not parseable as
`"Bearer <token>"` (non-ASCII bytes or a missing `Bearer ` prefix) yields
`Invalid`, as does a Bearer token failing signature, structure or expiry
verification; on successful verification the gate yields the claim's
subject. -/
theorem C3_amended (h : Option AuthHeaderVal) (secret : String) (now : Int) :
    (from_header_and_secret h secret now = .error .Missing ↔ h = none)
  ∧ (∀ s, from_header_and_secret (some (.notBearer s)) secret now = .error .Invalid)
  ∧ (∀ bs, from_header_and_secret (some (.badBytes bs)) secret now = .error .Invalid)
  ∧ (∀ t, from_header_and_secret (some (.bearerTok t)) secret now =
      match jwtDecode t secret now with
      | .error _ => .error .Invalid
      | .ok c => .ok c.sub) := by
  refine ⟨?_, fun s => rfl, fun bs => rfl, fun t => gate_bearer t secret now⟩
  constructor
  · intro he
    match h with
    | none => rfl
    | some (.badBytes _) => exact absurd (Except.error.inj he) (by simp)
    | some (.notBearer _) => exact absurd (Except.error.inj he) (by simp)
    | some (.bearerTok t) =>
      simp only [from_header_and_secret] at he
      match hd : jwtDecode t secret now with
      | .ok c => rw [hd] at he; cases he
      | .error _ => rw [hd] at he; exact absurd (Except.error.inj he) (by simp)
  · rintro rfl; rfl

/-- C3, witness of the amended theorem: a missing header is `Missing`, a
non-Bearer header is `Invalid`. -/
theorem C3_amended_witness :
    from_header_and_secret none "s" 1700000000 = .error .Missing
  ∧ from_header_and_secret (some (.notBearer "Token xyz")) "s" 1700000000
      = .error .Invalid :=
  ⟨(C3_amended none "s" 1700000000).1.mpr rfl,
   (C3_amended none "s" 1700000000).2.1 "Token xyz"⟩

/-- C4, counterexample: the `Missing` and `Invalid` rejections share the
HTTP status 401 but their response bodies differ (`"Authorization header
missing"` vs `"Invalid or expired token"`), so the responses are not
identical as the claim states. -/
theorem C4_counterexample :
    (authErrorResponse .Missing).1 = (authErrorResponse .Invalid).1
  ∧ (authErrorResponse .Missing).2 ≠ (authErrorResponse .Invalid).2 := by
  constructor
  · rfl
  · decide

/-- C4, amended: `Missing` and `Invalid` rejections share the 401 status but
carry different bodies, so the missing-vs-invalid distinction is exposed to
the caller; within `Invalid`, however, the finer causes (malformed token,
wrong signature, expired claim) all produce the identical observable
response. -/
theorem C4_amended (t t' : TokenStr) (secret : String) (now : Int) (e e' : JwtError)
    (hd : jwtDecode t secret now = .error e) (hd' : jwtDecode t' secret now = .error e') :
    (authErrorResponse .Missing).1 = 401
  ∧ (authErrorResponse .Invalid).1 = 401
  ∧ (authErrorResponse .Missing).2 ≠ (authErrorResponse .Invalid).2
  ∧ gateResponse (some (.bearerTok t)) secret now
      = gateResponse (some (.bearerTok t')) secret now
  ∧ gateResponse (some (.bearerTok t)) secret now
      = some (401, "Invalid or expired token") := by
  refine ⟨rfl, rfl, by decide, ?_, ?_⟩ <;>
    simp [gateResponse, from_header_and_secret, hd, hd', authErrorResponse]

/-- C4, witness: amended theorem applied to a malformed token and an expired
token under the same secret. -/
theorem C4_amended_witness :
    gateResponse (some (.bearerTok (.garbage "zzz"))) "s" 1700000000
      = gateResponse (some (.bearerTok (.signed ⟨"a@b", 0⟩ "s"))) "s" 1700000000 :=
  (C4_amended (.garbage "zzz") (.signed ⟨"a@b", 0⟩ "s") "s" 1700000000
    .malformed .expiredSignature rfl (by norm_num [jwtDecode, jwtLeeway])).2.2.2.1

/-- C5, counterexample: store a png, then store different bytes as jpg for
the same owner. The old `.png` is still present (as the claim says), but
precisely because of that the serve probe (png first) returns the OLD png
bytes with `image/png`, not the new jpg bytes with `image/jpeg` as the
claim states. -/
theorem C5_counterexample :
    save_pose_image_base64 ([] : FS) "d" "X" "data:image/png;base64,QUJD"
      = .ok ("/api/poses/X/image", [("d/X.png", [65, 66, 67])])
  ∧ get_pose_image ([("d/X.png", [65, 66, 67])] : FS) "d" "X"
      = .ok ([65, 66, 67], "image/png")
  ∧ save_pose_image_base64 ([("d/X.png", [65, 66, 67])] : FS) "d" "X"
      "data:image/jpeg;base64,REVG"
      = .ok ("/api/poses/X/image", [("d/X.jpg", [68, 69, 70]), ("d/X.png", [65, 66, 67])])
  ∧ fsGet ([("d/X.jpg", [68, 69, 70]), ("d/X.png", [65, 66, 67])] : FS) "d/X.png"
      = some [65, 66, 67]
  ∧ get_pose_image ([("d/X.jpg", [68, 69, 70]), ("d/X.png", [65, 66, 67])] : FS) "d" "X"
      = .ok ([65, 66, 67], "image/png")
  ∧ ([65, 66, 67] : List Nat) ≠ [68, 69, 70] := by
  refine ⟨?_, ?_, ?_, ?_, ?_, ?_⟩ <;> decide

/-- C5, amended: after storing png bytes and then different jpg bytes for
the same owner id, the old `.png` file is still physically present, and
serving returns the ORIGINAL png bytes with `image/png`: the probe order
(png, jpg, jpeg) makes the stale `.png` shadow the newly written `.jpg`. -/
theorem C5_amended (fs fs1 fs2 : FS) (dir id p1 p2 u1 u2 : String) (b1 b2 : List Nat)
    (h1 : decodeImagePayload p1 = .ok (b1, "png"))
    (h2 : decodeImagePayload p2 = .ok (b2, "jpg"))
    (hs1 : save_pose_image_base64 fs dir id p1 = .ok (u1, fs1))
    (hs2 : save_pose_image_base64 fs1 dir id p2 = .ok (u2, fs2)) :
    fsGet fs2 (imgPath dir id "png") = some b1
  ∧ get_pose_image fs2 dir id = .ok (b1, "image/png") := by
  simp only [save_pose_image_base64, h1, Except.ok.injEq, Prod.mk.injEq] at hs1
  simp only [save_pose_image_base64, h2, Except.ok.injEq, Prod.mk.injEq] at hs2
  obtain ⟨-, hf1⟩ := hs1
  obtain ⟨-, hf2⟩ := hs2
  subst hf1 hf2
  have hget : fsGet (fsWrite (fsWrite fs (imgPath dir id "png") b1)
      (imgPath dir id "jpg") b2) (imgPath dir id "png") = some b1 := by
    rw [fsGet_fsWrite_ne _ _ _ _ (imgPath_ne dir id (by decide)), fsGet_fsWrite_self]
  exact ⟨hget, by simp [get_pose_image, hget]⟩

/-- C5, witness for the amended theorem at concrete payloads. -/
theorem C5_amended_witness :
    fsGet ([("d/X.jpg", [68, 69, 70]), ("d/X.png", [65, 66, 67])] : FS)
      (imgPath "d" "X" "png") = some [65, 66, 67]
  ∧ get_pose_image ([("d/X.jpg", [68, 69, 70]), ("d/X.png", [65, 66, 67])] : FS) "d" "X"
      = .ok ([65, 66, 67], "image/png") :=
  C5_amended ([] : FS) ([("d/X.png", [65, 66, 67])] : FS)
    ([("d/X.jpg", [68, 69, 70]), ("d/X.png", [65, 66, 67])] : FS) "d" "X"
    "data:image/png;base64,QUJD" "data:image/jpeg;base64,REVG"
    "/api/poses/X/image" "/api/poses/X/image" [65, 66, 67] [68, 69, 70]
    (by decide) (by decide) (by decide) (by decide)

/-- C6, counterexample: on the payload `"data: image/png;base64,QUJD"`
(whitespace before the MIME type) the code trims the MIME part and stores
as png, while the claim's literal algorithm (prefix test on the untrimmed
MIME part) yields jpg — the decoder does not implement exactly the claimed
algorithm. -/
theorem C6_counterexample :
    decodeImagePayload "data: image/png;base64,QUJD" = .ok ([65, 66, 67], "png")
  ∧ decodeImageClaim "data: image/png;base64,QUJD" = .ok ([65, 66, 67], "jpg")
  ∧ decodeImagePayload "data: image/png;base64,QUJD"
      ≠ decodeImageClaim "data: image/png;base64,QUJD" := by
  refine ⟨?_, ?_, ?_⟩ <;> decide

/-- C6, amended: the decoder implements the claimed algorithm with one
amendment — the MIME part is trimmed before the case-insensitive
`image/png` prefix test (`mime.trim().to_lowercase().starts_with(..)`). -/
theorem C6_amended (payload : String) :
    decodeImagePayload payload = decodeImageSpec payload := by
  cases hsp : rustStripPrefix payload "data:" with
  | none =>
    cases hb : b64Decode (rustTrim payload) <;>
      simp [decodeImagePayload, decodeImageSpec, specSplit, specDecode, hsp, hb,
        Bind.bind, Except.bind]
  | some rest =>
    cases hso : rustSplitOnce rest ";base64," with
    | none =>
      simp [decodeImagePayload, decodeImageSpec, specSplit, specDecode, hsp, hso,
        Bind.bind, Except.bind]
    | some mb =>
      obtain ⟨mime, b64⟩ := mb
      cases hb : b64Decode (rustTrim b64) <;>
        simp [decodeImagePayload, decodeImageSpec, specSplit, specDecode, specExtension,
          hsp, hso, hb, Bind.bind, Except.bind]

/-- C6, witness of the amended theorem at a bare-base64 payload. -/
theorem C6_amended_witness :
    decodeImagePayload "QUJD" = decodeImageSpec "QUJD" := C6_amended "QUJD"

/-- C7, counterexample: with the identical "no user matches" lookup result,
`user_id_from_auth` fails with NotFound, but `create_post` does not use it:
it proceeds and creates the post with no author. -/
theorem C7_counterexample :
    (create_post ([] : FS) "d" "X" ⟨"QUJD", none, "0101"⟩ (.ok none)
        (fun uid => .ok ⟨"X", uid, "0101"⟩)).1 = .ok ⟨"X", none, "0101"⟩
  ∧ user_id_from_auth (.ok none) = .error (.NotFound "Usuario no encontrado") := by
  constructor <;> decide

/-- C7, amended: identity resolution (`user_id_from_auth`) delegates to the
user-lookup collaborator and fails with `NotFound "Usuario no encontrado"`
(mapping to 404, distinct from the 401 of auth failures) when no user
matches; the favorites/sessions/profile handlers resolve the caller this
way, but `create_post` instead inlines a `get_by_email` call and tolerates a
missing user, passing `None` authorship to the insert rather than failing. -/
theorem C7_amended (u : AuthUser) (e : DomainError)
    (favs : String → Except DomainError (List Pose))
    (fs : FS) (dir id : String) (body : CreatePostRequest)
    (db : Option String → Except DomainError Post) (bytes : List Nat) (ext : String)
    (himg : rustIsEmpty (rustTrim body.image_base64) = false)
    (hth : rustIsEmpty (rustTrim body.theme_of_the_day_id) = false)
    (hdec : decodeImagePayload body.image_base64 = .ok (bytes, ext)) :
    user_id_from_auth (.ok none) = .error (.NotFound "Usuario no encontrado")
  ∧ (apiErrorResponse (.NotFound "Usuario no encontrado")).1 = 404
  ∧ (∀ ae, (authErrorResponse ae).1 = 401)
  ∧ user_id_from_auth (.ok (some u)) = .ok u.id
  ∧ user_id_from_auth (.error e) = .error e
  ∧ get_favorite_poses (.ok none) favs = .error (.NotFound "Usuario no encontrado")
  ∧ (create_post fs dir id body (.ok none) db).1 = db none := by
  refine ⟨rfl, rfl, fun ae => by cases ae <;> rfl, rfl, rfl, rfl, ?_⟩
  cases hdb : db none <;>
    simp [create_post, himg, hth, save_post_image_base64, hdec, hdb]

/-- C7, witness for the amended theorem at a concrete request. -/
theorem C7_amended_witness :
    user_id_from_auth (.ok none) = .error (.NotFound "Usuario no encontrado")
  ∧ (create_post ([] : FS) "d" "X" ⟨"QUJD", none, "0101"⟩ (.ok none)
      (fun _ => .ok ⟨"X", none, "0101"⟩)).1 = .ok ⟨"X", none, "0101"⟩ :=
  have h := C7_amended ⟨"u1", "a@example.com", "H"⟩ (.Repository "x")
    (fun _ => .ok []) ([] : FS) "d" "X" ⟨"QUJD", none, "0101"⟩
    (fun _ => .ok ⟨"X", none, "0101"⟩) [65, 66, 67] "jpg"
    (by decide) (by decide) (by decide)
  ⟨h.1, h.2.2.2.2.2.2⟩

/-- C8: the login flow — a matching email whose password verifies against
the stored bcrypt hash yields a token whose decoded claim has `sub` equal to
that email and a `token_type` of "Bearer"; an unknown email, a failing
password comparison, or a malformed stored hash (comparison error collapsed
to `false`, never thrown) each yield a 401 with no token; a lookup error
yields a 500. -/
theorem C8_login (body : LoginRequest) (db : List AuthUser) (u : AuthUser)
    (bv : String → String → Except String Bool) (secret : String) (now : Int)
    (msg : String) :
    (authGetByEmail db (rustTrim body.email) = some u →
      bv body.password u.password_hash = .ok true →
      login body (.ok db) bv secret now
        = .ok ⟨create_token u.email secret (24 * 3600) now, "Bearer"⟩
      ∧ jwtDecode (create_token u.email secret (24 * 3600) now) secret now
        = .ok ⟨u.email, now + 24 * 3600⟩
      ∧ u.email = rustTrim body.email)
  ∧ (authGetByEmail db (rustTrim body.email) = none →
      login body (.ok db) bv secret now
        = .error (401, "Usuario o contraseña incorrectos"))
  ∧ (authGetByEmail db (rustTrim body.email) = some u →
      bv body.password u.password_hash = .ok false →
      login body (.ok db) bv secret now
        = .error (401, "Usuario o contraseña incorrectos"))
  ∧ (authGetByEmail db (rustTrim body.email) = some u →
      bv body.password u.password_hash = .error msg →
      login body (.ok db) bv secret now
        = .error (401, "Usuario o contraseña incorrectos"))
  ∧ login body (.error msg) bv secret now = .error (500, "Error al buscar usuario") := by
  refine ⟨?_, ?_, ?_, ?_, rfl⟩
  · intro hf hb
    refine ⟨by simp [login, hf, hb], ?_, ?_⟩
    · rw [jwtDecode_create_token, if_neg (by omega)]
    · have := List.find?_some hf
      simpa using this
  · intro hf
    simp [login, hf]
  · intro hf hb
    simp [login, hf, hb]
  · intro hf hb
    simp [login, hf, hb]

/-- C8, witness: a concrete one-user table; correct password succeeds with a
Bearer token for the (trimmed) email, wrong password yields 401. -/
theorem C8_login_witness :
    login ⟨" a@example.com ", "correct"⟩ (.ok [⟨"u1", "a@example.com", "H"⟩])
      (fun p _ => .ok (p == "correct")) "s" 1700000000
      = .ok ⟨create_token "a@example.com" "s" (24 * 3600) 1700000000, "Bearer"⟩
  ∧ login ⟨" a@example.com ", "wrong"⟩ (.ok [⟨"u1", "a@example.com", "H"⟩])
      (fun p _ => .ok (p == "correct")) "s" 1700000000
      = .error (401, "Usuario o contraseña incorrectos") :=
  ⟨((C8_login ⟨" a@example.com ", "correct"⟩ [⟨"u1", "a@example.com", "H"⟩]
      ⟨"u1", "a@example.com", "H"⟩ (fun p _ => .ok (p == "correct")) "s" 1700000000
      "x").1 (by decide) (by decide)).1,
   (C8_login ⟨" a@example.com ", "wrong"⟩ [⟨"u1", "a@example.com", "H"⟩]
      ⟨"u1", "a@example.com", "H"⟩ (fun p _ => .ok (p == "correct")) "s" 1700000000
      "x").2.2.1 (by decide) (by decide)⟩

/-- C9: for every subject and positive ttl, verifying immediately after
issuing with the same secret succeeds with the issued subject and expiry
`now + ttl` (Unix seconds as `Int`, the Rust `i64`); and every successful
login response carries a token issued with the fixed 24-hour TTL
(`24 * 3600` seconds). -/
theorem C9_roundtrip (sub secret : String) (ttl now : Int) (h : 0 < ttl) :
    jwtDecode (create_token sub secret ttl now) secret now = .ok ⟨sub, now + ttl⟩
  ∧ (∀ (body : LoginRequest) (db : List AuthUser)
      (bv : String → String → Except String Bool) (resp : LoginResponse),
      login body (.ok db) bv secret now = .ok resp →
      ∃ u : AuthUser, resp = ⟨create_token u.email secret (24 * 3600) now, "Bearer"⟩) := by
  constructor
  · rw [jwtDecode_create_token, if_neg (by omega)]
  · intro body db bv resp hl
    simp only [login] at hl
    split at hl
    · cases hl
    · next user _ =>
      split at hl
      · cases hl
      · exact ⟨user, (Except.ok.inj hl).symm⟩

/-- C9, witness at a concrete subject, secret, ttl and clock. -/
theorem C9_roundtrip_witness :
    jwtDecode (create_token "a@example.com" "s" 86400 1700000000) "s" 1700000000
      = .ok ⟨"a@example.com", 1700000000 + 86400⟩ :=
  (C9_roundtrip "a@example.com" "s" 86400 1700000000 (by norm_num)).1

/-- C10: every paginated list endpoint (poses, posts, portfolio images,
poses-by-hashtag) defaults `page` to 0 and `limit` to 20 and clamps the
limit passed to the repository to at most 100. -/
theorem C10_pagination (q : PaginationQuery) (p : Option Nat) :
    (list_poses_paginated_params q).2 ≤ 100
  ∧ (list_posts_paginated_params q).2 ≤ 100
  ∧ (get_portfolio_images_params q).2 ≤ 100
  ∧ (get_poses_by_hashtag_paginated_params q).2 ≤ 100
  ∧ list_poses_paginated_params ⟨p, none⟩ = (p.getD 0, 20)
  ∧ list_posts_paginated_params ⟨p, none⟩ = (p.getD 0, 20)
  ∧ get_portfolio_images_params ⟨p, none⟩ = (p.getD 0, 20)
  ∧ get_poses_by_hashtag_paginated_params ⟨p, none⟩ = (p.getD 0, 20)
  ∧ (list_poses_paginated_params ⟨none, q.limit⟩).1 = 0
  ∧ (list_posts_paginated_params ⟨none, q.limit⟩).1 = 0
  ∧ (get_portfolio_images_params ⟨none, q.limit⟩).1 = 0
  ∧ (get_poses_by_hashtag_paginated_params ⟨none, q.limit⟩).1 = 0 := by
  refine ⟨?_, ?_, ?_, ?_, rfl, rfl, rfl, rfl, rfl, rfl, rfl, rfl⟩ <;>
    simp [list_poses_paginated_params, list_posts_paginated_params,
      get_portfolio_images_params, get_poses_by_hashtag_paginated_params]

/-- C10, witness: a client-supplied limit of 1000 is clamped, and the
defaults are `(0, 20)`. -/
theorem C10_pagination_witness :
    (list_poses_paginated_params ⟨some 3, some 1000⟩).2 ≤ 100
  ∧ list_posts_paginated_params ⟨none, none⟩ = (0, 20) :=
  ⟨(C10_pagination ⟨some 3, some 1000⟩ none).1,
   (C10_pagination ⟨some 3, some 1000⟩ none).2.2.2.2.2.1⟩

end DanPhoto

